import Mathlib

/-!
Shallow embedding of `src/task01.py`: an in-memory address book with
validated `Name` and `Phone` fields, `Record` contacts and an
`AddressBook` mapping names to records.

Conventions of the embedding:
* Python's `ValueError` (the spec's single `ValidationError` kind) is
  modelled as the `Except.error` branch of `Except String`.
* Mutation of a Python object is modelled by explicit state passing: a
  method that mutates `self` returns the new state, paired with its
  return value; a method that can raise returns the post-call state even
  in the error case (the state the Python object has after the exception
  propagates).
* Python `str` is Lean `String`; `str.isdigit` is modelled on the
  decimal-digit (ASCII) fragment: non-empty and every character a digit.
* `AddressBook` inherits `UserDict`; its `self.data` dict is modelled as
  an insertion-ordered association list with the representation
  invariant (maintained by `dict` itself) that keys are unique.
  Assignment to an existing key updates in place, otherwise appends;
  deletion removes the entry with the key.
-/

namespace Task01

/-- `str.isdigit` of Python, on the decimal-digit fragment: true iff the
string is non-empty and every character is a decimal digit. -/
def pyIsDigit (s : String) : Bool :=
  !s.data.isEmpty && s.data.all (fun c => c.isDigit)

/-- `Name` field (`class Name(Field)`): stores one string value. -/
structure Name where
  value : String
deriving DecidableEq, Repr

/-- `Name.__init__`: raises `ValueError` when the value is falsy (the
empty string), otherwise stores the value verbatim. -/
def Name.init (value : String) : Except String Name :=
  if value = "" then
    Except.error "The name cannot be empty."
  else
    Except.ok ⟨value⟩

/-- `Phone` field (`class Phone(Field)`): stores one string value. -/
structure Phone where
  value : String
deriving DecidableEq, Repr

/-- `Phone.__init__`: raises `ValueError` unless the value is all digits
(`value.isdigit()`) and has length exactly 10; otherwise stores it
verbatim. -/
def Phone.init (value : String) : Except String Phone :=
  if !(pyIsDigit value) || value.length != 10 then
    Except.error "The phone number must contain exactly 10 digits"
  else
    Except.ok ⟨value⟩

/-- The exact guard of `Phone.__init__` as a predicate: the value passes
validation. -/
def phoneValid (s : String) : Bool :=
  pyIsDigit s && s.length == 10

/-- `Record`: a contact, one `Name` plus an ordered list of `Phone`s. -/
structure Record where
  name : Name
  phones : List Phone
deriving DecidableEq, Repr

/-- `Record.__init__(name)`: validates the name via `Name(name)` and
starts with an empty phone list. -/
def Record.init (name : String) : Except String Record :=
  match Name.init name with
  | Except.error e => Except.error e
  | Except.ok n => Except.ok ⟨n, []⟩

/-- `Record.add_phone`: constructs `Phone(phone)` (which may raise) and
appends it; on failure the phone list is unchanged. -/
def Record.add_phone (r : Record) (phone : String) : Except String Unit × Record :=
  match Phone.init phone with
  | Except.error e => (Except.error e, r)
  | Except.ok p => (Except.ok (), { r with phones := r.phones ++ [p] })

/-- Helper for `Record.remove_phone`: remove the first phone in the list
whose value equals `raw`; `none` when no phone matches. -/
def removeFirstPhone : List Phone → String → Option (List Phone)
  | [], _ => none
  | p :: ps, raw =>
    if p.value = raw then some ps
    else (removeFirstPhone ps raw).map (fun l => p :: l)

/-- `Record.remove_phone`: scans in order for the first phone whose value
equals `phone`, removes it and returns `true`; returns `false` (and
changes nothing) when no phone matches. -/
def Record.remove_phone (r : Record) (phone : String) : Bool × Record :=
  match removeFirstPhone r.phones phone with
  | none => (false, r)
  | some ps => (true, { r with phones := ps })

/-- `Record.edit_phone`: scans for the first phone whose value equals
`old_phone`; if none, returns `false` without validating `new_phone`.
If found at index `i`, constructs `Phone(new_phone)` (which may raise,
in which case the list is untouched) and assigns it at index `i`,
returning `true`. -/
def Record.edit_phone (r : Record) (old_phone new_phone : String) :
    Except String Bool × Record :=
  match r.phones.findIdx? (fun p => p.value == old_phone) with
  | none => (Except.ok false, r)
  | some i =>
    match Phone.init new_phone with
    | Except.error e => (Except.error e, r)
    | Except.ok np => (Except.ok true, { r with phones := r.phones.set i np })

/-- `Record.find_phone`: the first phone whose value equals `phone`, or
`None`. -/
def Record.find_phone (r : Record) (phone : String) : Option Phone :=
  r.phones.find? (fun p => p.value == phone)

/-- Python `sep.join(parts)`. -/
def pyJoin (sep : String) : List String → String
  | [] => ""
  | [x] => x
  | x :: y :: xs => x ++ sep ++ pyJoin sep (y :: xs)

/-- `Record.__str__`: `f"Contact name: {self.name.value}, phones: {...}"`
with the phone values joined by `"; "`. -/
def Record.toStr (r : Record) : String :=
  "Contact name: " ++ r.name.value ++ ", phones: " ++
    pyJoin "; " (r.phones.map (fun p => p.value))

/-- `AddressBook(UserDict)`: its `self.data` dict, as an ordered
association list with unique keys. -/
structure AddressBook where
  data : List (String × Record)
deriving DecidableEq, Repr

/-- Python dict assignment `d[k] = v`: update in place at an existing
key, else append at the end. -/
def dictSet : List (String × Record) → String → Record → List (String × Record)
  | [], k, v => [(k, v)]
  | kv :: rest, k, v =>
    if kv.1 = k then (k, v) :: rest else kv :: dictSet rest k v

/-- `AddressBook.add_record`: `self.data[record.name.value] = record`. -/
def AddressBook.add_record (book : AddressBook) (record : Record) : AddressBook :=
  ⟨dictSet book.data record.name.value record⟩

/-- `AddressBook.find`: `self.data.get(name)`. -/
def AddressBook.find (book : AddressBook) (name : String) : Option Record :=
  (book.data.find? (fun kv => kv.1 == name)).map (fun kv => kv.2)

/-- `AddressBook.delete`: `del self.data[name]` when present, no-op when
absent (removes the entries with key `name`; under the unique-key
representation invariant this is the single entry Python deletes). -/
def AddressBook.delete (book : AddressBook) (name : String) : AddressBook :=
  ⟨book.data.filter (fun kv => kv.1 != name)⟩

/-- The `Record` representation invariant: the name is non-empty and
every stored phone passes the validation of `Phone.__init__`. -/
def RecordInv (r : Record) : Prop :=
  r.name.value ≠ "" ∧ ∀ p ∈ r.phones, phoneValid p.value = true

/-! ### Basic characterization lemmas -/

theorem String.length_eq_data_length (s : String) : s.length = s.data.length :=
  rfl

theorem phone_init_ok_of_valid (s : String) (h1 : s.length = 10)
    (h2 : s.data.all (fun c => c.isDigit) = true) :
    Phone.init s = Except.ok ⟨s⟩ := by
  have hne : s.data ≠ [] := by
    intro h
    rw [String.length_eq_data_length, h] at h1
    simp at h1
  simp [Phone.init, pyIsDigit, h1, h2, hne]

theorem phone_init_err_of_invalid (s : String)
    (h : ¬(s.length = 10 ∧ s.data.all (fun c => c.isDigit) = true)) :
    Phone.init s = Except.error "The phone number must contain exactly 10 digits" := by
  by_cases hlen : s.length = 10
  · have hdig : s.data.all (fun c => c.isDigit) = false := by
      rcases Bool.eq_false_or_eq_true (s.data.all (fun c => c.isDigit)) with hd | hd
      · exact absurd ⟨hlen, hd⟩ h
      · exact hd
    simp [Phone.init, pyIsDigit, hdig]
  · simp [Phone.init, hlen]

theorem phone_init_ok_valid (s : String) (p : Phone)
    (h : Phone.init s = Except.ok p) :
    phoneValid p.value = true ∧ p.value = s := by
  unfold Phone.init at h
  by_cases hc : (!(pyIsDigit s) || s.length != 10) = true
  · simp [hc] at h
  · simp [hc] at h
    simp only [Bool.or_eq_true, Bool.not_eq_true', bne_iff_ne, ne_eq, not_or,
      Bool.not_eq_false, Decidable.not_not] at hc
    subst h
    exact ⟨by simp [phoneValid, hc.1, hc.2], rfl⟩

/-! ### C1 -/

/-- C1: For every string `p`, constructing `Phone(p)` succeeds and stores
`p` verbatim iff `p` has length exactly 10 and every character is a
decimal digit; otherwise it fails with the validation error. -/
theorem C1_phone_validation (p : String) :
    (p.length = 10 ∧ p.data.all (fun c => c.isDigit) = true →
      Phone.init p = Except.ok ⟨p⟩)
    ∧ (¬(p.length = 10 ∧ p.data.all (fun c => c.isDigit) = true) →
      Phone.init p = Except.error "The phone number must contain exactly 10 digits") :=
  ⟨fun h => phone_init_ok_of_valid p h.1 h.2, fun h => phone_init_err_of_invalid p h⟩

/-- Witness for C1: a valid 10-digit value succeeds verbatim; a short
value and a value with letters fail. -/
theorem C1_phone_validation_witness :
    Phone.init "1234567890" = Except.ok ⟨"1234567890"⟩
    ∧ Phone.init "12345" = Except.error "The phone number must contain exactly 10 digits"
    ∧ Phone.init "12345678ab" = Except.error "The phone number must contain exactly 10 digits" :=
  ⟨(C1_phone_validation "1234567890").1 (by decide),
   (C1_phone_validation "12345").2 (by decide),
   (C1_phone_validation "12345678ab").2 (by decide)⟩

/-! ### C9 -/

/-- C9: every non-empty string is accepted by `Name` and stored verbatim;
the empty string makes `Name`, and hence `Record`, construction fail with
the validation error. -/
theorem C9_name_validation (s : String) :
    (s ≠ "" → Name.init s = Except.ok ⟨s⟩)
    ∧ Name.init "" = Except.error "The name cannot be empty."
    ∧ Record.init "" = Except.error "The name cannot be empty." := by
  refine ⟨fun h => by simp [Name.init, h], by simp [Name.init], ?_⟩
  simp [Record.init, Name.init]

/-- Witness for C9: the non-empty name "John" is accepted verbatim. -/
theorem C9_name_validation_witness :
    Name.init "John" = Except.ok ⟨"John"⟩ :=
  (C9_name_validation "John").1 (by decide)

/-! ### C8 -/

/-- The suffix a non-first join element contributes: `sep ++ elem` for
each remaining element. -/
def pyGlue (sep : String) : List String → String
  | [] => ""
  | a :: as => sep ++ a ++ pyGlue sep as

theorem intercalate_go_eq (sep : String) :
    ∀ (l : List String) (acc : String),
      String.intercalate.go acc sep l = acc ++ pyGlue sep l
  | [], acc => by simp [String.intercalate.go, pyGlue]
  | a :: as, acc => by
    rw [String.intercalate.go, intercalate_go_eq sep as (acc ++ sep ++ a)]
    simp [pyGlue, String.append_assoc]

theorem pyJoin_eq_intercalate (sep : String) :
    ∀ l : List String, pyJoin sep l = String.intercalate sep l
  | [] => rfl
  | [a] => by
    rw [pyJoin, String.intercalate, intercalate_go_eq]
    simp [pyGlue]
  | a :: b :: as => by
    rw [pyJoin, pyJoin_eq_intercalate sep (b :: as),
      String.intercalate, String.intercalate, intercalate_go_eq,
      String.intercalate.go, intercalate_go_eq]
    simp [pyGlue, String.append_assoc]

/-- C8: the string form of a record is `"Contact name: <name>, phones: "`
followed by the stored phone values in order joined with `"; "`; with no
phones it ends with `"phones: "`. -/
theorem C8_record_str (r : Record) :
    r.toStr = "Contact name: " ++ r.name.value ++ ", phones: " ++
      String.intercalate "; " (r.phones.map (fun p => p.value))
    ∧ (r.phones = [] →
      r.toStr = "Contact name: " ++ r.name.value ++ ", phones: ") := by
  constructor
  · rw [Record.toStr, pyJoin_eq_intercalate]
  · intro h
    simp [Record.toStr, h, pyJoin]

/-- Witness for C8: a two-phone record and an empty record render as the
spec's examples show. -/
theorem C8_record_str_witness :
    (Record.toStr ⟨⟨"John"⟩, [⟨"1234567890"⟩, ⟨"5555555555"⟩]⟩ =
      "Contact name: John, phones: 1234567890; 5555555555")
    ∧ (Record.toStr ⟨⟨"Jane"⟩, []⟩ = "Contact name: Jane, phones: ") := by
  constructor
  · rw [(C8_record_str ⟨⟨"John"⟩, [⟨"1234567890"⟩, ⟨"5555555555"⟩]⟩).1]
    rfl
  · rw [(C8_record_str ⟨⟨"Jane"⟩, []⟩).2 rfl]
    rfl

/-! ### List scanning lemmas -/

theorem name_init_ok (s : String) (n : Name) (h : Name.init s = Except.ok n) :
    n.value = s ∧ s ≠ "" := by
  unfold Name.init at h
  by_cases hs : s = ""
  · simp [hs] at h
  · simp [hs] at h
    exact ⟨by rw [← h], hs⟩

theorem removeFirstPhone_eq_none (raw : String) :
    ∀ l : List Phone, (∀ p ∈ l, p.value ≠ raw) → removeFirstPhone l raw = none
  | [], _ => rfl
  | p :: ps, h => by
    have hp : p.value ≠ raw := h p (by simp)
    simp [removeFirstPhone, hp,
      removeFirstPhone_eq_none raw ps (fun q hq => h q (by simp [hq]))]

theorem removeFirstPhone_append (raw : String) (p : Phone) (hp : p.value = raw) :
    ∀ (l₁ l₂ : List Phone), (∀ q ∈ l₁, q.value ≠ raw) →
      removeFirstPhone (l₁ ++ p :: l₂) raw = some (l₁ ++ l₂)
  | [], l₂, _ => by simp [removeFirstPhone, hp]
  | q :: l₁, l₂, h => by
    have hq : q.value ≠ raw := h q (by simp)
    simp [removeFirstPhone, hq,
      removeFirstPhone_append raw p hp l₁ l₂ (fun x hx => h x (by simp [hx]))]

theorem mem_of_mem_removeFirstPhone (raw : String) :
    ∀ (l l' : List Phone), removeFirstPhone l raw = some l' →
      ∀ q ∈ l', q ∈ l
  | [], _, h => by simp [removeFirstPhone] at h
  | p :: ps, l', h => by
    by_cases hp : p.value = raw
    · simp [removeFirstPhone, hp] at h
      subst h
      intro q hq
      exact List.mem_cons_of_mem p hq
    · simp [removeFirstPhone, hp] at h
      obtain ⟨tl, htl, rfl⟩ := h
      intro q hq
      rcases List.mem_cons.mp hq with rfl | hq
      · simp
      · exact List.mem_cons_of_mem p (mem_of_mem_removeFirstPhone raw ps tl htl q hq)

theorem findIdx?_of_not_found (pred : Phone → Bool) (l : List Phone)
    (h : ∀ q ∈ l, pred q = false) : l.findIdx? pred = none := by
  have hany : l.any pred = false := by
    rw [List.any_eq_false]
    intro q hq
    simp [h q hq]
  have hs := @List.findIdx?_isSome _ l pred
  rw [hany] at hs
  cases hfi : l.findIdx? pred with
  | none => rfl
  | some i => rw [hfi] at hs; simp at hs

theorem findIdx?_first_match (pred : Phone → Bool) (p : Phone) (hp : pred p = true) :
    ∀ (l₁ l₂ : List Phone) (i : Nat), (∀ q ∈ l₁, pred q = false) →
      List.findIdx? pred (l₁ ++ p :: l₂) i = some (i + l₁.length)
  | [], l₂, i, _ => by simp [List.findIdx?_cons, hp]
  | q :: l₁, l₂, i, h => by
    have hq : pred q = false := h q (by simp)
    rw [List.cons_append, List.findIdx?_cons, hq, if_neg (by simp),
      findIdx?_first_match pred p hp l₁ l₂ (i + 1) (fun x hx => h x (by simp [hx]))]
    congr 1
    simp only [List.length_cons]
    omega

theorem set_middle (l₁ l₂ : List Phone) (p np : Phone) :
    (l₁ ++ p :: l₂).set l₁.length np = l₁ ++ np :: l₂ := by
  rw [List.set_append]
  simp

/-! ### C2 -/

/-- C2: when some stored phone equals `old_raw` but `new_raw` is not a
valid phone value, `edit_phone` fails with the validation error and the
phone sequence is completely unchanged. -/
theorem C2_edit_invalid_new (r : Record) (old_raw new_raw : String)
    (hfound : ∃ p ∈ r.phones, p.value = old_raw)
    (hbad : ¬(new_raw.length = 10 ∧ new_raw.data.all (fun c => c.isDigit) = true)) :
    r.edit_phone old_raw new_raw =
      (Except.error "The phone number must contain exactly 10 digits", r) := by
  obtain ⟨p, hmem, hval⟩ := hfound
  have hidx : (r.phones.findIdx? (fun q => q.value == old_raw)).isSome := by
    rw [List.findIdx?_isSome, List.any_eq_true]
    exact ⟨p, hmem, by simp [hval]⟩
  obtain ⟨i, hi⟩ := Option.isSome_iff_exists.mp hidx
  simp [Record.edit_phone, hi, phone_init_err_of_invalid new_raw hbad]

/-- Witness for C2: editing the present phone to the invalid value
"12ab" fails and preserves the single-phone record. -/
theorem C2_edit_invalid_new_witness :
    Record.edit_phone ⟨⟨"John"⟩, [⟨"1234567890"⟩]⟩ "1234567890" "12ab" =
      (Except.error "The phone number must contain exactly 10 digits",
        ⟨⟨"John"⟩, [⟨"1234567890"⟩]⟩) :=
  C2_edit_invalid_new ⟨⟨"John"⟩, [⟨"1234567890"⟩]⟩ "1234567890" "12ab"
    ⟨⟨"1234567890"⟩, by decide, by decide⟩ (by decide)

/-! ### C3 -/

/-- C3: when no stored phone equals `old_raw`, `edit_phone` returns
`false`, never raises (even for an invalid `new_raw`), and leaves the
phone sequence unchanged. -/
theorem C3_edit_not_found (r : Record) (old_raw new_raw : String)
    (h : ∀ p ∈ r.phones, p.value ≠ old_raw) :
    r.edit_phone old_raw new_raw = (Except.ok false, r) := by
  have hidx : r.phones.findIdx? (fun q => q.value == old_raw) = none :=
    findIdx?_of_not_found _ r.phones (fun q hq => by simp [h q hq])
  simp [Record.edit_phone, hidx]

/-- Witness for C3: an absent `old_raw` with an invalid `new_raw` still
returns `false` without error, record untouched. -/
theorem C3_edit_not_found_witness :
    Record.edit_phone ⟨⟨"John"⟩, [⟨"1234567890"⟩]⟩ "not-present" "12ab" =
      (Except.ok false, ⟨⟨"John"⟩, [⟨"1234567890"⟩]⟩) :=
  C3_edit_not_found ⟨⟨"John"⟩, [⟨"1234567890"⟩]⟩ "not-present" "12ab" (by decide)

/-! ### C4 -/

/-- C4: `remove_phone` removes exactly the first stored phone equal to
`raw` and returns `true`; with no match it returns `false` and changes
nothing; after removing the only occurrence a second call returns
`false`. -/
theorem C4_remove_phone (r : Record) (raw : String) :
    ((∀ p ∈ r.phones, p.value ≠ raw) → r.remove_phone raw = (false, r))
    ∧ (∀ l₁ p l₂, r.phones = l₁ ++ p :: l₂ → p.value = raw →
        (∀ q ∈ l₁, q.value ≠ raw) →
        r.remove_phone raw = (true, ⟨r.name, l₁ ++ l₂⟩))
    ∧ (∀ l₁ p l₂, r.phones = l₁ ++ p :: l₂ → p.value = raw →
        (∀ q ∈ l₁ ++ l₂, q.value ≠ raw) →
        ((r.remove_phone raw).2.remove_phone raw).1 = false) := by
  refine ⟨fun h => ?_, fun l₁ p l₂ hsplit hp hfirst => ?_, fun l₁ p l₂ hsplit hp honly => ?_⟩
  · simp [Record.remove_phone, removeFirstPhone_eq_none raw r.phones h]
  · simp [Record.remove_phone, hsplit, removeFirstPhone_append raw p hp l₁ l₂ hfirst]
  · have hfirst : ∀ q ∈ l₁, q.value ≠ raw := fun q hq => honly q (by simp [hq])
    have h1 : r.remove_phone raw = (true, ⟨r.name, l₁ ++ l₂⟩) := by
      simp [Record.remove_phone, hsplit, removeFirstPhone_append raw p hp l₁ l₂ hfirst]
    rw [h1]
    simp [Record.remove_phone, removeFirstPhone_eq_none raw (l₁ ++ l₂) honly]

/-- Witness for C4: removing "1234567890" from a two-phone record drops
only the first match; the second call returns `false`. -/
theorem C4_remove_phone_witness :
    Record.remove_phone ⟨⟨"John"⟩, [⟨"1234567890"⟩, ⟨"5555555555"⟩]⟩ "1234567890" =
      (true, ⟨⟨"John"⟩, [⟨"5555555555"⟩]⟩)
    ∧ ((Record.remove_phone ⟨⟨"John"⟩, [⟨"1234567890"⟩, ⟨"5555555555"⟩]⟩
        "1234567890").2.remove_phone "1234567890").1 = false :=
  ⟨(C4_remove_phone ⟨⟨"John"⟩, [⟨"1234567890"⟩, ⟨"5555555555"⟩]⟩ "1234567890").2.1
      [] ⟨"1234567890"⟩ [⟨"5555555555"⟩] (by decide) (by decide) (by decide),
   (C4_remove_phone ⟨⟨"John"⟩, [⟨"1234567890"⟩, ⟨"5555555555"⟩]⟩ "1234567890").2.2
      [] ⟨"1234567890"⟩ [⟨"5555555555"⟩] (by decide) (by decide) (by decide)⟩

/-! ### C5 -/

/-- C5: when `new_raw` is a valid 10-digit value and `old_raw` is stored,
`edit_phone` replaces the first match in place at its index, returns
`true`, and leaves the name, the length and every other position
unchanged. -/
theorem C5_edit_found_valid (r : Record) (l₁ l₂ : List Phone) (p : Phone)
    (old_raw new_raw : String) (hsplit : r.phones = l₁ ++ p :: l₂)
    (hp : p.value = old_raw) (hfirst : ∀ q ∈ l₁, q.value ≠ old_raw)
    (hvalid : new_raw.length = 10 ∧ new_raw.data.all (fun c => c.isDigit) = true) :
    r.edit_phone old_raw new_raw = (Except.ok true, ⟨r.name, l₁ ++ ⟨new_raw⟩ :: l₂⟩) := by
  have hidx : r.phones.findIdx? (fun q => q.value == old_raw) = some l₁.length := by
    rw [hsplit]
    have := findIdx?_first_match (fun q => q.value == old_raw) p (by simp [hp])
      l₁ l₂ 0 (fun q hq => by simp [hfirst q hq])
    simpa using this
  unfold Record.edit_phone
  rw [hidx, phone_init_ok_of_valid new_raw hvalid.1 hvalid.2]
  show (Except.ok true, Record.mk r.name (r.phones.set l₁.length ⟨new_raw⟩)) = _
  rw [hsplit, set_middle]

/-- Witness for C5: editing "1234567890" to "1112223333" in John's
two-phone record replaces position 0 only. -/
theorem C5_edit_found_valid_witness :
    Record.edit_phone ⟨⟨"John"⟩, [⟨"1234567890"⟩, ⟨"5555555555"⟩]⟩
        "1234567890" "1112223333" =
      (Except.ok true, ⟨⟨"John"⟩, [⟨"1112223333"⟩, ⟨"5555555555"⟩]⟩) :=
  C5_edit_found_valid ⟨⟨"John"⟩, [⟨"1234567890"⟩, ⟨"5555555555"⟩]⟩
    [] [⟨"5555555555"⟩] ⟨"1234567890"⟩ "1234567890" "1112223333"
    (by decide) (by decide) (by decide) (by decide)

/-! ### C10 -/

/-- C10: records reachable through construction, `add_phone`,
`remove_phone` and `edit_phone` always have a non-empty name and only
phones passing the constructor's validation; every operation preserves
the invariant, also when it fails. -/
theorem C10_record_invariant :
    (∀ s r, Record.init s = Except.ok r → RecordInv r)
    ∧ (∀ r s, RecordInv r → RecordInv (r.add_phone s).2)
    ∧ (∀ r s, RecordInv r → RecordInv (r.remove_phone s).2)
    ∧ (∀ r o n, RecordInv r → RecordInv (r.edit_phone o n).2) := by
  refine ⟨fun s r h => ?_, fun r s hr => ?_, fun r s hr => ?_, fun r o n hr => ?_⟩
  · unfold Record.init at h
    cases hn : Name.init s with
    | error e => rw [hn] at h; simp at h
    | ok nm =>
      rw [hn] at h
      simp at h
      obtain ⟨hval, hne⟩ := name_init_ok s nm hn
      subst h
      exact ⟨by simpa [hval], by simp⟩
  · unfold Record.add_phone
    cases hp : Phone.init s with
    | error e => simpa using hr
    | ok p =>
      refine ⟨hr.1, fun q hq => ?_⟩
      simp at hq
      rcases hq with hq | rfl
      · exact hr.2 q hq
      · exact (phone_init_ok_valid s q hp).1
  · unfold Record.remove_phone
    cases hrem : removeFirstPhone r.phones s with
    | none => simpa using hr
    | some ps =>
      exact ⟨hr.1, fun q hq =>
        hr.2 q (mem_of_mem_removeFirstPhone s r.phones ps hrem q hq)⟩
  · unfold Record.edit_phone
    cases hidx : r.phones.findIdx? (fun q => q.value == o) with
    | none => simpa using hr
    | some i =>
      cases hp : Phone.init n with
      | error e => simpa using hr
      | ok np =>
        refine ⟨hr.1, fun q hq => ?_⟩
        simp at hq
        rcases List.mem_or_eq_of_mem_set hq with hq | rfl
        · exact hr.2 q hq
        · exact (phone_init_ok_valid n q hp).1

/-- Witness for C10: a freshly constructed record, the same record after
a successful `add_phone`, and after a failing `add_phone`, all satisfy
the invariant. -/
theorem C10_record_invariant_witness :
    RecordInv ⟨⟨"John"⟩, []⟩
    ∧ RecordInv ((Record.mk ⟨"John"⟩ []).add_phone "1234567890").2
    ∧ RecordInv ((Record.mk ⟨"John"⟩ []).add_phone "12ab").2 :=
  ⟨C10_record_invariant.1 "John" ⟨⟨"John"⟩, []⟩ rfl,
   C10_record_invariant.2.1 ⟨⟨"John"⟩, []⟩ "1234567890"
     (C10_record_invariant.1 "John" ⟨⟨"John"⟩, []⟩ rfl),
   C10_record_invariant.2.1 ⟨⟨"John"⟩, []⟩ "12ab"
     (C10_record_invariant.1 "John" ⟨⟨"John"⟩, []⟩ rfl)⟩

/-! ### AddressBook lemmas -/

theorem find?_dictSet_self (k : String) (v : Record) :
    ∀ l, (dictSet l k v).find? (fun kv => kv.1 == k) = some (k, v)
  | [] => by simp [dictSet]
  | kv :: rest => by
    by_cases h : kv.1 = k
    · simp [dictSet, h]
    · simp [dictSet, h, List.find?_cons, find?_dictSet_self k v rest]

theorem find?_dictSet_other (k other : String) (v : Record) (hne : other ≠ k) :
    ∀ l, (dictSet l k v).find? (fun kv => kv.1 == other) =
      l.find? (fun kv => kv.1 == other)
  | [] => by simp [dictSet, Ne.symm hne]
  | kv :: rest => by
    by_cases h : kv.1 = k
    · have hkv : (kv.1 == other) = false := by simp [h, Ne.symm hne]
      simp [dictSet, h, List.find?_cons, hkv, Ne.symm hne]
    · cases hkv : (kv.1 == other) with
      | true => simp [dictSet, h, List.find?_cons, hkv]
      | false => simp [dictSet, h, List.find?_cons, hkv,
          find?_dictSet_other k other v hne rest]

theorem find?_filter_ne (name : String) (l : List (String × Record)) :
    (l.filter (fun kv => kv.1 != name)).find? (fun kv => kv.1 == name) = none := by
  rw [List.find?_eq_none]
  intro kv hkv
  have h := (List.mem_filter.mp hkv).2
  simp only [bne_iff_ne, ne_eq] at h
  simp [h]

/-! ### C6 -/

/-- C6: after `add_record`, `find` on the record's name returns a record
with the same string form; `delete` then `find` returns `none`; `delete`
of an absent name is a no-op and does not fail. -/
theorem C6_addressbook_roundtrip (book : AddressBook) (record : Record) (name : String) :
    (∃ r, (book.add_record record).find record.name.value = some r ∧
      r.toStr = record.toStr)
    ∧ (book.delete name).find name = none
    ∧ (book.find name = none → book.delete name = book) := by
  refine ⟨⟨record, ?_, rfl⟩, ?_, fun h => ?_⟩
  · simp [AddressBook.add_record, AddressBook.find, find?_dictSet_self]
  · simp [AddressBook.delete, AddressBook.find, find?_filter_ne]
  · rw [AddressBook.find, Option.map_eq_none', List.find?_eq_none] at h
    cases book with
    | mk data =>
      rw [AddressBook.delete]
      congr 1
      rw [List.filter_eq_self]
      intro kv hkv
      have := h kv hkv
      simpa using this

/-- Witness for C6: adding John's record to the empty book makes him
findable with the same rendering; deleting the absent "Jane" is a no-op
and leaves her unfindable. -/
theorem C6_addressbook_roundtrip_witness :
    (∃ r, ((AddressBook.mk []).add_record ⟨⟨"John"⟩, [⟨"1234567890"⟩]⟩).find "John" =
        some r ∧ r.toStr = Record.toStr ⟨⟨"John"⟩, [⟨"1234567890"⟩]⟩)
    ∧ ((AddressBook.mk []).delete "Jane").find "Jane" = none
    ∧ (AddressBook.mk []).delete "Jane" = AddressBook.mk [] :=
  ⟨(C6_addressbook_roundtrip ⟨[]⟩ ⟨⟨"John"⟩, [⟨"1234567890"⟩]⟩ "Jane").1,
   (C6_addressbook_roundtrip ⟨[]⟩ ⟨⟨"John"⟩, [⟨"1234567890"⟩]⟩ "Jane").2.1,
   (C6_addressbook_roundtrip ⟨[]⟩ ⟨⟨"John"⟩, [⟨"1234567890"⟩]⟩ "Jane").2.2 rfl⟩

/-! ### C7 -/

/-- C7: adding a record whose name string matches an existing key
silently overwrites that entry: a subsequent `find` on the name returns
the newly added record, and `find` on every other name is unchanged. -/
theorem C7_addressbook_overwrite (book : AddressBook) (r₁ r₂ : Record) (other : String)
    (hprev : book.find r₂.name.value = some r₁) :
    (book.add_record r₂).find r₂.name.value = some r₂
    ∧ (other ≠ r₂.name.value → (book.add_record r₂).find other = book.find other) := by
  refine ⟨?_, fun hne => ?_⟩
  · simp [AddressBook.add_record, AddressBook.find, find?_dictSet_self]
  · simp [AddressBook.add_record, AddressBook.find,
      find?_dictSet_other r₂.name.value other r₂ hne]

/-- Witness for C7: overwriting John's single-phone record with a
different John record makes `find "John"` return the new record while
`find "Jane"` is unchanged. -/
theorem C7_addressbook_overwrite_witness :
    (AddressBook.add_record ⟨[("John", ⟨⟨"John"⟩, [⟨"1234567890"⟩]⟩)]⟩
        ⟨⟨"John"⟩, [⟨"5555555555"⟩]⟩).find "John" =
      some ⟨⟨"John"⟩, [⟨"5555555555"⟩]⟩
    ∧ (AddressBook.add_record ⟨[("John", ⟨⟨"John"⟩, [⟨"1234567890"⟩]⟩)]⟩
        ⟨⟨"John"⟩, [⟨"5555555555"⟩]⟩).find "Jane" =
      AddressBook.find ⟨[("John", ⟨⟨"John"⟩, [⟨"1234567890"⟩]⟩)]⟩ "Jane" :=
  ⟨(C7_addressbook_overwrite ⟨[("John", ⟨⟨"John"⟩, [⟨"1234567890"⟩]⟩)]⟩
      ⟨⟨"John"⟩, [⟨"1234567890"⟩]⟩ ⟨⟨"John"⟩, [⟨"5555555555"⟩]⟩ "Jane" rfl).1,
   (C7_addressbook_overwrite ⟨[("John", ⟨⟨"John"⟩, [⟨"1234567890"⟩]⟩)]⟩
      ⟨⟨"John"⟩, [⟨"1234567890"⟩]⟩ ⟨⟨"John"⟩, [⟨"5555555555"⟩]⟩ "Jane" rfl).2
     (by decide)⟩

end Task01
